import Mathlib

/-!
Shallow embedding of the contact-manager program `src/hw_7.py` (an
interactive address book with validated value types, per-record phone and
birthday operations, an upcoming-birthday query, and a command layer that
translates exceptions into display strings).

Modelling conventions:
  * Python strings are Lean `String`s; `\d` of the regexes is modelled as
    the ASCII digits `'0'..'9'` (`Char.isDigit`).
  * Python exceptions are modelled with `Except String`: a caught
    exception's display string is an `.ok` message of the command layer,
    an uncaught exception (such as `AttributeError`) is an `.error`.
  * Python's in-place object mutation plus exceptions is modelled by
    operations returning the updated value next to the `Except` result:
    mutations performed before an exception was raised persist.
  * `datetime.date` values are `PyDate` triples; `datetime.today()` is an
    explicit `today` parameter of the functions that consume it.
-/

/-- ASCII digit test, the model of `\d` in the source's regular
expressions and of the digit fields of `strptime`. -/
def isDig (c : Char) : Bool := c.isDigit

/-- ASCII whitespace, the model of the character class Python's
`str.strip()` and `str.split()` remove. -/
def isSpaceChar (c : Char) : Bool :=
  c == ' ' || c == '\t' || c == '\n' || c == '\r'

/-- Model of `str.strip()`: drop leading and trailing whitespace. -/
def pyStrip (s : String) : String :=
  ⟨((s.data.dropWhile isSpaceChar).reverse.dropWhile isSpaceChar).reverse⟩

/-- Model of `str.lower()` (on the ASCII command tokens of this program). -/
def pyLower (s : String) : String := ⟨s.data.map Char.toLower⟩

/-- Accumulator pass of `str.split()`: split on runs of whitespace,
discarding empty tokens. -/
def wordsAux : List Char → List Char → List String
  | [], acc => if acc.isEmpty then [] else [⟨acc.reverse⟩]
  | c :: cs, acc =>
    if isSpaceChar c then
      if acc.isEmpty then wordsAux cs [] else ⟨acc.reverse⟩ :: wordsAux cs []
    else wordsAux cs (c :: acc)

/-- Accumulator pass of `str.split('.')`: split on every dot, keeping
empty groups. -/
def splitDotsAux : List Char → List Char → List (List Char)
  | [], acc => [acc.reverse]
  | c :: cs, acc =>
    if c == '.' then acc.reverse :: splitDotsAux cs []
    else splitDotsAux cs (c :: acc)

/-- Numeric value of a list of digit characters, most significant first. -/
def digitsVal (cs : List Char) : Nat :=
  cs.foldl (fun a c => a * 10 + (c.toNat - 48)) 0

/-- Model of `datetime.date`: a plain year/month/day triple.  Validity is
checked where the source constructs dates. -/
structure PyDate where
  year : Nat
  month : Nat
  day : Nat
deriving DecidableEq, Repr

/-- Gregorian leap-year rule, as used by Python's `datetime`. -/
def isLeap (y : Nat) : Bool :=
  y % 4 == 0 && (y % 100 != 0 || y % 400 == 0)

/-- Number of days in a month of a given year (Gregorian). -/
def daysInMonth (y m : Nat) : Nat :=
  if m = 2 then (if isLeap y then 29 else 28)
  else if m = 4 ∨ m = 6 ∨ m = 9 ∨ m = 11 then 30
  else 31

/-- Model of `datetime.date(y, m, d)` constructibility: Python requires
`MINYEAR = 1 ≤ y ≤ 9999 = MAXYEAR`, `1 ≤ m ≤ 12`, `1 ≤ d ≤` month length. -/
def isValidDate (y m d : Nat) : Bool :=
  1 ≤ y && y ≤ 9999 && 1 ≤ m && m ≤ 12 && 1 ≤ d && d ≤ daysInMonth y m

/-- Days in the months strictly before month `m` of year `y`. -/
def daysBeforeMonth (y m : Nat) : Nat :=
  (List.range (m - 1)).foldl (fun acc i => acc + daysInMonth y (i + 1)) 0

/-- Proleptic-Gregorian ordinal of a date, with `0001-01-01 ↦ 1`, matching
`datetime.date.toordinal`. -/
def toOrdinal (dt : PyDate) : Nat :=
  365 * (dt.year - 1) + (dt.year - 1) / 4 - (dt.year - 1) / 100
    + (dt.year - 1) / 400 + daysBeforeMonth dt.year dt.month + dt.day

/-- Python `date.weekday()`: Monday = 0 … Sunday = 6.  `0001-01-01`
(ordinal 1) is a Monday. -/
def pyWeekday (dt : PyDate) : Nat := (toOrdinal dt + 6) % 7

/-- Python `date` ordering (`birthday_this_year < today`): lexicographic on
(year, month, day). -/
def dateLt (a b : PyDate) : Bool :=
  a.year < b.year
    || (a.year == b.year
        && (a.month < b.month || (a.month == b.month && a.day < b.day)))

/-- Successor day in the calendar (used to model `+ timedelta(days=n)` for
the small shifts of the greeting date). -/
def nextDay (dt : PyDate) : PyDate :=
  if dt.day < daysInMonth dt.year dt.month then ⟨dt.year, dt.month, dt.day + 1⟩
  else if dt.month < 12 then ⟨dt.year, dt.month + 1, 1⟩
  else ⟨dt.year + 1, 1, 1⟩

/-- Model of `dt + timedelta(days = n)` for small `n`. -/
def addDays (dt : PyDate) : Nat → PyDate
  | 0 => dt
  | n + 1 => addDays (nextDay dt) n

/-- Zero-pad a number to width 2, as `strftime("%d")` / `("%m")` do. -/
def pad2 (n : Nat) : String :=
  if n < 10 then "0" ++ toString n else toString n

/-- Zero-pad a number to width 4, as `strftime("%Y")` does on CPython. -/
def pad4 (n : Nat) : String :=
  if n < 1000 then
    (if n < 10 then "000" else if n < 100 then "00" else "0") ++ toString n
  else toString n

/-- Model of `date.strftime("%d.%m.%Y")`. -/
def fmtDate (dt : PyDate) : String :=
  pad2 dt.day ++ "." ++ pad2 dt.month ++ "." ++ pad4 dt.year

/-- Longest digit run at the head of a character list and the remainder;
the shape in which `strptime`'s field regexes consume the input.  (As the
character after a numeric field of `"%d.%m.%Y"` must be a literal `'.'`,
which is not a digit, the regex's backtracking over 1- versus 2-digit day
and month fields coincides with this greedy split.) -/
def spanDigits : List Char → List Char × List Char
  | [] => ([], [])
  | c :: cs =>
      if isDig c then
        let p := spanDigits cs
        (c :: p.1, p.2)
      else ([], c :: cs)

/-- Model of `datetime.strptime(s, "%d.%m.%Y").date()`.  The CPython field regexes
are day `3[01]|[12]\d|0[1-9]|[1-9]` (one or two digits, value 1–31), month
`1[0-2]|0[1-9]|[1-9]` (one or two digits, value 1–12), year `\d\d\d\d`
(exactly four digits); the whole input must be consumed, and the matched
numbers must form a constructible `datetime` (year ≥ 1, day within the
month). -/
def parseDMY (s : String) : Option PyDate :=
  match spanDigits s.data with
  | (dcs, '.' :: r2) =>
    match spanDigits r2 with
    | (mcs, '.' :: r4) =>
      match spanDigits r4 with
      | (ycs, []) =>
        if 1 ≤ dcs.length ∧ dcs.length ≤ 2 ∧ 1 ≤ mcs.length ∧ mcs.length ≤ 2
            ∧ ycs.length = 4 then
          if 1 ≤ digitsVal dcs ∧ digitsVal dcs ≤ 31
              ∧ 1 ≤ digitsVal mcs ∧ digitsVal mcs ≤ 12 then
            if 1 ≤ digitsVal ycs
                ∧ digitsVal dcs ≤ daysInMonth (digitsVal ycs) (digitsVal mcs)
              then some ⟨digitsVal ycs, digitsVal mcs, digitsVal dcs⟩
            else none
          else none
        else none
      | _ => none
    | _ => none
  | _ => none

/-- Model of `re.match(r"^\d{10}$", s)` is not `None`.  In Python, `$` matches at
the end of the string or just before a single newline at the end, so ten
digits followed by one `'\n'` also match. -/
def reMatchTenDigits (s : String) : Bool :=
  let cs := s.data
  (cs.length == 10 && cs.all isDig)
    || (cs.length == 11 && (cs.take 10).all isDig && cs.getLast? == some '\n')

/-- Model of `Phone.__init__`: keep the raw string if it matches `^\d{10}$`, else
raise `ValueError`. -/
def Phone.make (s : String) : Except String String :=
  if reMatchTenDigits s then .ok s
  else .error "Phone must contain exactly 10 digits."

/-- Model of `Name.__init__`: raise `ValueError` when the stripped value is empty. -/
def Name.make (s : String) : Except String String :=
  if pyStrip s = "" then .error "Name cannot be empty." else .ok s

/-- Model of `Birthday.__init__`: validate the raw string with
`datetime.strptime(value, "%d.%m.%Y")`, then store the *string* itself
(the source's comment: «Зберігаємо як рядок»). -/
def Birthday.make (s : String) : Except String String :=
  match parseDMY s with
  | some _ => .ok s
  | none => .error "Invalid date format. Use DD.MM.YYYY."

/-- One contact (`Record`): a name, an ordered phone list, an optional
birthday.  The `Phone`/`Birthday` wrappers carry only their `.value`
strings, so they are stored here as the validated strings. -/
structure Record where
  name : String
  phones : List String
  birthday : Option String
deriving DecidableEq, Repr

/-- Model of `Record(name)` after `Name` validation succeeded. -/
def Record.new (name : String) : Record := ⟨name, [], none⟩

/-- Model of `Record.find_phone`: first phone whose `.value` equals `phone`. -/
def Record.find_phone (r : Record) (phone : String) : Option String :=
  r.phones.find? (fun q => q == phone)

/-- Remove the first occurrence of `phone` from a phone list
(`list.remove` of the object returned by `find_phone`). -/
def removeFirst : List String → String → List String
  | [], _ => []
  | q :: rest, p => if q == p then rest else q :: removeFirst rest p

/-- Model of `Record.remove_phone`: drop the first matching phone; silently a no-op
when absent. -/
def Record.remove_phone (r : Record) (phone : String) : Record :=
  ⟨r.name, removeFirst r.phones phone, r.birthday⟩

/-- Model of `Record.add_phone`: validate with `Phone(phone)` and append.  The pair
is (record after the call, raised-or-not): on a `ValueError` the record is
unchanged. -/
def Record.add_phone (r : Record) (phone : String) :
    Record × Except String Unit :=
  match Phone.make phone with
  | .ok v => (⟨r.name, r.phones ++ [v], r.birthday⟩, .ok ())
  | .error e => (r, .error e)

/-- Model of `Record.edit_phone`: if `old` is present, remove it and then append
the validated `new`; the removal persists even when validating `new`
raises.  When `old` is absent, raise `ValueError`. -/
def Record.edit_phone (r : Record) (old new : String) :
    Record × Except String Unit :=
  match r.find_phone old with
  | some _ => (r.remove_phone old).add_phone new
  | none => (r, .error "Old phone not found.")

/-- Model of `Record.add_birthday`: raise when a birthday is already set, else
validate and store. -/
def Record.set_birthday (r : Record) (b : String) :
    Record × Except String Unit :=
  match r.birthday with
  | some _ => (r, .error "Birthday is already set.")
  | none =>
    match Birthday.make b with
    | .ok v => (⟨r.name, r.phones, some v⟩, .ok ())
    | .error e => (r, .error e)

/-- Model of `Record.__str__`.  The stored birthday `.value` is a *string*, yet the
source formats it with `self.birthday.value.strftime('%d.%m.%Y')`; on any
record with a birthday this raises `AttributeError` (uncaught anywhere in
the program), modelled as `.error`. -/
def Record.render (r : Record) : Except String String :=
  match r.birthday with
  | some _ => .error "'str' object has no attribute 'strftime'"
  | none => .ok ("Contact name: " ++ r.name ++ ", phones: "
      ++ String.intercalate "; " r.phones)

/-- Model of `AddressBook`: Python's insertion-ordered `dict` as an ordered list of
key/record pairs (keys unique when built through the API). -/
structure AddressBook where
  data : List (String × Record)
deriving DecidableEq, Repr

/-- The empty book created at start-up. -/
def AddressBook.empty : AddressBook := ⟨[]⟩

/-- Model of `AddressBook.find` / `dict.get`: first (unique) entry for the name. -/
def AddressBook.find (b : AddressBook) (n : String) : Option Record :=
  (b.data.find? (fun p => p.1 == n)).map Prod.snd

/-- Replace the first entry with the given key (`dict` assignment on an
existing key keeps the entry's position). -/
def setFirst : List (String × Record) → String → Record
    → List (String × Record)
  | [], _, _ => []
  | p :: rest, n, r => if p.1 == n then (n, r) :: rest else p :: setFirst rest n r

/-- Write back a (possibly mutated) record under its key. -/
def AddressBook.set (b : AddressBook) (n : String) (r : Record) : AddressBook :=
  ⟨setFirst b.data n r⟩

/-- Model of `AddressBook.add_record`: `self.data[record.name.value] = record` —
overwrite in place when the key exists, append otherwise. -/
def AddressBook.add_record (b : AddressBook) (r : Record) : AddressBook :=
  match b.find r.name with
  | some _ => b.set r.name r
  | none => ⟨b.data ++ [(r.name, r)]⟩

/-- Drop the first entry with the given key (`del self.data[name]`). -/
def eraseFirst : List (String × Record) → String → List (String × Record)
  | [], _ => []
  | p :: rest, n => if p.1 == n then rest else p :: eraseFirst rest n

/-- Model of `AddressBook.delete` after the `name in self.data` check succeeded. -/
def AddressBook.erase (b : AddressBook) (n : String) : AddressBook :=
  ⟨eraseFirst b.data n⟩

/-- Model of `date.replace(year := y)` on a stored birthday date: re-validates the
resulting date exactly as the `datetime.date` constructor does. -/
def replaceYear (d : PyDate) (y : Nat) : Except String PyDate :=
  if y < 1 ∨ 9999 < y then .error ("year " ++ toString y ++ " is out of range")
  else if d.month < 1 ∨ 12 < d.month then .error "month must be in 1..12"
  else if daysInMonth y d.month < d.day then .error "day is out of range for month"
  else .ok ⟨y, d.month, d.day⟩

/-- The per-record body of `AddressBook.get_upcoming_birthdays`: parse the
stored birthday string, move it into `today`'s year (advancing to next
year when already passed), keep it when `0 ≤ days_until ≤ 7`, and shift a
Saturday candidate by two days and a Sunday one by one day.  `.error` is a
propagating `ValueError` (in particular from `replace` on Feb 29 in a
non-leap year). -/
def processRecord (today : PyDate) (r : Record) :
    Except String (Option (String × String)) :=
  match r.birthday with
  | none => .ok none
  | some bstr =>
    match parseDMY bstr with
    | none => .error ("time data '" ++ bstr
        ++ "' does not match format '%d.%m.%Y'")
    | some bd =>
      match replaceYear bd today.year with
      | .error e => .error e
      | .ok c0 =>
        match (if dateLt c0 today then replaceYear c0 (today.year + 1)
               else .ok c0) with
        | .error e => .error e
        | .ok c =>
          let days : Int := (toOrdinal c : Int) - (toOrdinal today : Int)
          if 0 ≤ days ∧ days ≤ 7 then
            .ok (some (r.name,
              fmtDate (if pyWeekday c = 5 then addDays c 2
                       else if pyWeekday c = 6 then addDays c 1 else c)))
          else .ok none

/-- The loop of `get_upcoming_birthdays` over the book's entries in
insertion order; the first uncaught `ValueError` aborts the whole query. -/
def upcomingList (today : PyDate) :
    List (String × Record) → Except String (List (String × String))
  | [] => .ok []
  | p :: rest =>
    match processRecord today p.2 with
    | .error e => .error e
    | .ok none => upcomingList today rest
    | .ok (some entry) =>
      match upcomingList today rest with
      | .error e => .error e
      | .ok l => .ok (entry :: l)

/-- Model of `AddressBook.get_upcoming_birthdays`, with `datetime.today()` made an
explicit parameter. -/
def getUpcoming (today : PyDate) (b : AddressBook) :
    Except String (List (String × String)) :=
  upcomingList today b.data

/-- A command invocation's outcome: the string the dispatch loop prints
(`.ok`, including the display strings the `input_error` decorator makes of
caught exceptions), or an uncaught exception (`.error`), together with the
book after the call. -/
abbrev CmdResult := Except String String × AddressBook

/-- Model of `add_contact`: `args[0]` raising `IndexError` on an empty list is
translated by `input_error`; a fresh `Record(name)` (with its `Name`
validation) is inserted before the optional phone is added, so a phone
`ValueError` leaves the new empty record in the book. -/
def add_contact (args : List String) (book : AddressBook) : CmdResult :=
  match args with
  | [] => (.ok "Enter the argument for the command.", book)
  | name :: rest =>
    let phone? : Option String := rest.head?
    match book.find name with
    | some r =>
      match phone? with
      | none => (.ok "Contact updated.", book)
      | some p =>
        if p = "" then (.ok "Contact updated.", book)
        else
          let pr := r.add_phone p
          let book' := book.set name pr.1
          match pr.2 with
          | .ok _ => (.ok "Contact updated.", book')
          | .error e => (.ok e, book')
    | none =>
      if pyStrip name = "" then (.ok "Name cannot be empty.", book)
      else
        let r := Record.new name
        let book1 := book.add_record r
        match phone? with
        | none => (.ok "Contact added.", book1)
        | some p =>
          if p = "" then (.ok "Contact added.", book1)
          else
            let pr := r.add_phone p
            let book2 := book1.set name pr.1
            match pr.2 with
            | .ok _ => (.ok "Contact added.", book2)
            | .error e => (.ok e, book2)

/-- Model of `change_contact`: `name, old_phone, new_phone = args` raises
`ValueError` («not enough/too many values to unpack») unless `args` has
exactly three elements; `input_error` returns `str(e)` verbatim. -/
def change_contact (args : List String) (book : AddressBook) : CmdResult :=
  match args with
  | [n, o, w] =>
    match book.find n with
    | some r =>
      let pr := r.edit_phone o w
      let book' := book.set n pr.1
      match pr.2 with
      | .ok _ => (.ok ("Phone updated for contact " ++ n ++ "."), book')
      | .error e => (.ok e, book')
    | none => (.ok "This contact does not exist.", book)
  | _ =>
    if args.length < 3 then
      (.ok ("not enough values to unpack (expected 3, got "
        ++ toString args.length ++ ")"), book)
    else (.ok "too many values to unpack (expected 3)", book)

/-- Model of `show_phone`: guarded by an explicit `if not args` check. -/
def show_phone (args : List String) (book : AddressBook) : CmdResult :=
  match args with
  | [] => (.ok "Enter a contact name.", book)
  | name :: _ =>
    match book.find name with
    | some r =>
      (.ok ("Phones for " ++ name ++ ": " ++ String.intercalate ", " r.phones),
        book)
    | none => (.ok "This contact does not exist.", book)

/-- Model of `delete_contact`: `book.delete` raises `KeyError` on an absent name,
which `input_error` turns into the not-found message. -/
def delete_contact (args : List String) (book : AddressBook) : CmdResult :=
  match args with
  | [] => (.ok "Enter a contact name to delete.", book)
  | name :: _ =>
    match book.find name with
    | some _ => (.ok ("Contact " ++ name ++ " deleted."), book.erase name)
    | none => (.ok "This contact does not exist.", book)

/-- Model of `add_birthday` (the command): `name, birthday = args` unpacking, then
`Record.add_birthday` on the found record; mutations and caught
`ValueError`s as in the source. -/
def add_birthday (args : List String) (book : AddressBook) : CmdResult :=
  match args with
  | [n, b] =>
    match book.find n with
    | some r =>
      let pr := r.set_birthday b
      let book' := book.set n pr.1
      match pr.2 with
      | .ok _ => (.ok ("Birthday added for contact " ++ n ++ "."), book')
      | .error e => (.ok e, book')
    | none => (.ok "This contact does not exist.", book)
  | _ =>
    if args.length < 2 then
      (.ok ("not enough values to unpack (expected 2, got "
        ++ toString args.length ++ ")"), book)
    else (.ok "too many values to unpack (expected 2)", book)

/-- Model of `show_birthday`: on a record with a birthday the f-string evaluates
`record.birthday.value.strftime('%d.%m.%Y')` on a stored *string*, raising
`AttributeError`, which `input_error` does not catch (it only handles
`KeyError`, `ValueError`, `IndexError`, `TypeError`). -/
def show_birthday (args : List String) (book : AddressBook) : CmdResult :=
  match args with
  | [] => (.ok "Enter the argument for the command.", book)
  | name :: _ =>
    match book.find name with
    | some r =>
      match r.birthday with
      | some _ => (.error "'str' object has no attribute 'strftime'", book)
      | none => (.ok "No birthday found for this contact.", book)
    | none => (.ok "No birthday found for this contact.", book)

/-- Model of `birthdays` (the command): runs the query; a propagating `ValueError`
is caught by `input_error` and its message returned as the display
string. -/
def birthdays (today : PyDate) (_args : List String) (book : AddressBook) :
    CmdResult :=
  match getUpcoming today book with
  | .error e => (.ok e, book)
  | .ok [] => (.ok "No upcoming birthdays.", book)
  | .ok l =>
    (.ok (String.intercalate "\n"
      (l.map (fun e => e.1 ++ ": " ++ e.2))), book)

/-- Where `main`'s loop routes a command token. -/
inductive Route where
  | exitLoop
  | hello
  | handler (key : String)
  | unknown
deriving DecidableEq, Repr

/-- The keys of the `commands` dictionary in `main`. -/
def commandKeys : List String :=
  ["add", "change", "phone", "all", "birthday", "add-birthday", "birthdays"]

/-- Model of `main`'s routing of the lowered first token of an input line. -/
def dispatch (cmd : String) : Route :=
  if cmd == "close" || cmd == "exit" then .exitLoop
  else if cmd == "hello" then .hello
  else if commandKeys.contains cmd then .handler cmd
  else .unknown

/-- Model of `parse_input`: split the stripped line on whitespace; the first token,
lower-cased, is the command, the rest are the arguments. -/
def parse_input (line : String) : String × List String :=
  match wordsAux (pyStrip line).data [] with
  | [] => ("", [])
  | c :: rest => (pyLower c, rest)

/-- Spec-side predicate, following the spec's words for the `Phone`
claim: «the string consists of exactly 10 decimal digits». -/
def tenDigitString (l : List Char) : Prop :=
  l.length = 10 ∧ ∀ c ∈ l, c.isDigit = true

instance (l : List Char) : Decidable (tenDigitString l) := by
  unfold tenDigitString; infer_instance

/-- Spec-side predicate, following the claim's words for the `Birthday`
shape: «2-digit day, 2-digit month and 4-digit year separated by dots»
forming a valid calendar date. -/
def claimBirthdayShape (s : String) : Bool :=
  match splitDotsAux s.data [] with
  | [d, m, y] =>
    d.length == 2 && m.length == 2 && y.length == 4
      && d.all isDig && m.all isDig && y.all isDig
      && isValidDate (digitsVal y) (digitsVal m) (digitsVal d)
  | _ => false

/-- Structural description of the strings `Birthday` accepts: three
dot-separated digit groups, day and month of one or two digits with
values in range, a four-digit year, and a constructible calendar date. -/
def birthdayShapeSpec (s : String) : Prop :=
  ∃ dcs mcs ycs : List Char,
    s.data = dcs ++ '.' :: (mcs ++ '.' :: ycs)
    ∧ (∀ c ∈ dcs, c.isDigit = true) ∧ (∀ c ∈ mcs, c.isDigit = true)
    ∧ (∀ c ∈ ycs, c.isDigit = true)
    ∧ 1 ≤ dcs.length ∧ dcs.length ≤ 2 ∧ 1 ≤ mcs.length ∧ mcs.length ≤ 2
    ∧ ycs.length = 4
    ∧ 1 ≤ digitsVal dcs ∧ digitsVal dcs ≤ 31
    ∧ 1 ≤ digitsVal mcs ∧ digitsVal mcs ≤ 12
    ∧ 1 ≤ digitsVal ycs
    ∧ digitsVal dcs ≤ daysInMonth (digitsVal ycs) (digitsVal mcs)

/-- Spec-side per-record result of the upcoming-birthday query, written
after the claim's words: form `candidate = (today.year, bday.month,
bday.day)`, advance to `today.year + 1` when `candidate < today`, include
the contact iff `0 ≤ (candidate - today).days ≤ 7`, and report `candidate`
shifted forward 2 days on a Saturday and 1 day on a Sunday. -/
def specEntry (today : PyDate) (r : Record) : Option (String × String) :=
  match r.birthday with
  | none => none
  | some bstr =>
    match parseDMY bstr with
    | none => none
    | some bd =>
      let cand0 : PyDate := ⟨today.year, bd.month, bd.day⟩
      let cand : PyDate :=
        if dateLt cand0 today then ⟨today.year + 1, bd.month, bd.day⟩ else cand0
      let days : Int := (toOrdinal cand : Int) - (toOrdinal today : Int)
      if 0 ≤ days ∧ days ≤ 7 then
        some (r.name,
          fmtDate (if pyWeekday cand = 5 then addDays cand 2
                   else if pyWeekday cand = 6 then addDays cand 1 else cand))
      else none

/-! ### Helper lemmas -/

theorem spanDigits_append (l : List Char) :
    (spanDigits l).1 ++ (spanDigits l).2 = l := by
  induction l with
  | nil => rfl
  | cons c cs ih =>
    by_cases h : isDig c = true
    · simp [spanDigits, h, ih]
    · simp [spanDigits, h]

theorem spanDigits_fst_all (l : List Char) :
    ∀ c ∈ (spanDigits l).1, isDig c = true := by
  induction l with
  | nil => intro c hc; simp [spanDigits] at hc
  | cons a cs ih =>
    intro c hc
    by_cases h : isDig a = true
    · simp [spanDigits, h] at hc
      rcases hc with rfl | hc
      · exact h
      · exact ih c hc
    · simp [spanDigits, h] at hc

theorem spanDigits_of_all (l : List Char) (hl : ∀ c ∈ l, isDig c = true) :
    spanDigits l = (l, []) := by
  induction l with
  | nil => rfl
  | cons a cs ih =>
    have ha : isDig a = true := hl a (by simp)
    have := ih (fun c hc => hl c (by simp [hc]))
    simp [spanDigits, ha, this]

theorem spanDigits_stop (l : List Char) (hl : ∀ c ∈ l, isDig c = true)
    (t : List Char) : spanDigits (l ++ '.' :: t) = (l, '.' :: t) := by
  induction l with
  | nil => simp [spanDigits]; rfl
  | cons a cs ih =>
    have ha : isDig a = true := hl a (by simp)
    have := ih (fun c hc => hl c (by simp [hc]))
    simp [spanDigits, ha, this]

theorem setFirst_self (l : List (String × Record)) (n : String) (r : Record)
    (h : (l.find? (fun p => p.1 == n)).map Prod.snd = some r) :
    setFirst l n r = l := by
  induction l with
  | nil => simp [List.find?] at h
  | cons p rest ih =>
    cases hp : (p.1 == n) with
    | true =>
      have hpos : ((fun q : String × Record => q.1 == n) p = true) := by
        simpa using hp
      rw [List.find?_cons_of_pos rest hpos] at h
      simp at h
      have hn : p.1 = n := by simpa using hp
      simp [setFirst, hp, ← hn, ← h]
    | false =>
      have hneg : ¬((fun q : String × Record => q.1 == n) p = true) := by
        simp [hp]
      rw [List.find?_cons_of_neg rest hneg] at h
      simp [setFirst, hp, ih h]

theorem find_set_self (b : AddressBook) (n : String) (r : Record)
    (h : b.find n = some r) : b.set n r = b := by
  unfold AddressBook.find at h
  unfold AddressBook.set
  cases b with
  | mk data => simpa using setFirst_self data n r h

theorem replaceYear_ok {d : PyDate} {y : Nat} {c : PyDate}
    (h : replaceYear d y = .ok c) : c = ⟨y, d.month, d.day⟩ := by
  unfold replaceYear at h
  split at h
  · exact absurd h (by simp)
  · split at h
    · exact absurd h (by simp)
    · split at h
      · exact absurd h (by simp)
      · simpa using h.symm

theorem Birthday.make_ok {s v : String} (h : Birthday.make s = .ok v) :
    v = s := by
  unfold Birthday.make at h
  split at h
  · simpa using h.symm
  · exact absurd h (by simp)

theorem processRecord_ok_eq_spec {today : PyDate} {r : Record}
    {o : Option (String × String)} (h : processRecord today r = .ok o) :
    o = specEntry today r := by
  cases hb : r.birthday with
  | none =>
    simp [processRecord, hb] at h
    simp [specEntry, hb, ← h]
  | some bstr =>
    cases hp : parseDMY bstr with
    | none => simp [processRecord, hb, hp] at h
    | some bd =>
      cases hr : replaceYear bd today.year with
      | error e => simp [processRecord, hb, hp, hr] at h
      | ok c0 =>
        have hc0 : c0 = ⟨today.year, bd.month, bd.day⟩ := replaceYear_ok hr
        subst hc0
        cases hlt : dateLt (⟨today.year, bd.month, bd.day⟩ : PyDate) today with
        | false =>
          simp [processRecord, hb, hp, hr, hlt] at h
          simp [specEntry, hb, hp, hlt]
          split at h
          · next hc => rw [if_pos hc]; exact (Except.ok.inj h).symm
          · next hc => rw [if_neg hc]; exact (Except.ok.inj h).symm
        | true =>
          cases hr2 : replaceYear ⟨today.year, bd.month, bd.day⟩
              (today.year + 1) with
          | error e => simp [processRecord, hb, hp, hr, hlt, hr2] at h
          | ok c =>
            have hc : c = ⟨today.year + 1, bd.month, bd.day⟩ :=
              replaceYear_ok hr2
            subst hc
            simp [processRecord, hb, hp, hr, hlt, hr2] at h
            simp [specEntry, hb, hp, hlt]
            split at h
            · next hcnd => rw [if_pos hcnd]; exact (Except.ok.inj h).symm
            · next hcnd => rw [if_neg hcnd]; exact (Except.ok.inj h).symm

theorem upcomingList_ok (today : PyDate) :
    ∀ (l : List (String × Record)) (es : List (String × String)),
      upcomingList today l = .ok es →
      es = l.filterMap (fun p => specEntry today p.2)
  | [], es, h => by simpa [upcomingList] using h.symm
  | p :: rest, es, h => by
    cases hp : processRecord today p.2 with
    | error e => simp [upcomingList, hp] at h
    | ok o =>
      have ho : o = specEntry today p.2 := processRecord_ok_eq_spec hp
      cases o with
      | none =>
        rw [upcomingList, hp] at h
        have := upcomingList_ok today rest es h
        simp [List.filterMap_cons, ← ho, this]
      | some entry =>
        rw [upcomingList, hp] at h
        cases hrest : upcomingList today rest with
        | error e => rw [hrest] at h; exact absurd h (by simp)
        | ok l' =>
          rw [hrest] at h
          have h' : es = entry :: l' := by simpa using h.symm
          have := upcomingList_ok today rest l' hrest
          simp [h', List.filterMap_cons, ← ho, this]


theorem birthdays_snd (today : PyDate) (args : List String)
    (book : AddressBook) : (birthdays today args book).2 = book := by
  unfold birthdays
  cases h : getUpcoming today book with
  | error e => rfl
  | ok l =>
    cases l with
    | nil => rfl
    | cons a t => rfl

/-! ### Claim theorems -/

/-- Claim C1 (code bug): rendering a record whose birthday is set does
*not* produce the documented contact line — the stored birthday is a
string and `strftime` is called on it, so `Record.__str__` raises
`AttributeError`, and the show-birthday command on such a contact
propagates the same uncaught `AttributeError` instead of returning
`Birthday of <name>: <DD.MM.YYYY>`. -/
theorem render_birthday_attributeError :
    Record.render ⟨"Anna", ["1234567890"], some "01.01.2000"⟩
      = .error "'str' object has no attribute 'strftime'"
    ∧ (show_birthday ["Anna"]
        ⟨[("Anna", ⟨"Anna", ["1234567890"], some "01.01.2000"⟩)]⟩).1
      = .error "'str' object has no attribute 'strftime'" := ⟨rfl, rfl⟩

/-- Claim C7 (code bug): the `commands` dictionary of `main` has no
`"delete"` key and no `"show-birthday"` key (`show_birthday` is reachable
only under the undocumented key `"birthday"`, and `delete_contact` is
never wired up), so input lines beginning with `delete` or
`show-birthday` fall through to the `Unknown command.` branch. -/
theorem delete_show_birthday_unrecognized :
    dispatch (parse_input "delete Anna").1 = Route.unknown
    ∧ dispatch (parse_input "show-birthday Anna").1 = Route.unknown
    ∧ dispatch "delete" = Route.unknown
    ∧ dispatch "show-birthday" = Route.unknown := ⟨rfl, rfl, rfl, rfl⟩

/-- Claim C8: once a record's birthday is set by a successful
`add_birthday`, a second `add_birthday` call on it always fails with the
already-set `ValueError` and leaves the record — in particular the stored
first-set value — unchanged. -/
theorem second_birthday_set_fails (r : Record) (b1 b2 : String)
    (r1 : Record) (h : r.set_birthday b1 = (r1, .ok ())) :
    r1.birthday = some b1
    ∧ r1.set_birthday b2 = (r1, .error "Birthday is already set.") := by
  unfold Record.set_birthday at h
  cases hb : r.birthday with
  | some v => rw [hb] at h; exact absurd h (by simp)
  | none =>
    rw [hb] at h
    cases hm : Birthday.make b1 with
    | error e => rw [hm] at h; exact absurd h (by simp)
    | ok v =>
      rw [hm] at h
      rw [Birthday.make_ok hm] at h
      have hr1 : r1 = ⟨r.name, r.phones, some b1⟩ := by
        have := congrArg Prod.fst h
        simpa using this.symm
      subst hr1
      exact ⟨rfl, by simp [Record.set_birthday]⟩

/-- Witness for C8 at a concrete record: setting `01.01.2000` and then
attempting `02.02.2002`. -/
theorem second_birthday_set_fails_witness :
    (⟨"Anna", [], some "01.01.2000"⟩ : Record).birthday = some "01.01.2000"
    ∧ (⟨"Anna", [], some "01.01.2000"⟩ : Record).set_birthday "02.02.2002"
      = (⟨"Anna", [], some "01.01.2000"⟩,
          .error "Birthday is already set.") :=
  second_birthday_set_fails (Record.new "Anna") "01.01.2000" "02.02.2002"
    ⟨"Anna", [], some "01.01.2000"⟩ rfl

/-- Claim C9: the upcoming-birthdays command is a pure read — the book
after running `birthdays` is always the book before, whatever `today`,
the arguments and the book's contents are. -/
theorem birthdays_command_pure (today : PyDate) (args : List String)
    (book : AddressBook) : (birthdays today args book).2 = book :=
  birthdays_snd today args book

/-- Counterexample to claim C6: `change` with two arguments is reported
with the tuple-unpacking `ValueError` text (returned verbatim by
`input_error`), not with `Enter the argument for the command.`; the same
shape of message appears for `add-birthday` with one argument. -/
theorem change_missing_args_message_cex :
    (change_contact ["Anna", "123"] AddressBook.empty).1
      = .ok "not enough values to unpack (expected 3, got 2)"
    ∧ (change_contact ["Anna", "123"] AddressBook.empty).1
      ≠ .ok "Enter the argument for the command."
    ∧ (add_birthday ["Anna"] AddressBook.empty).1
      = .ok "not enough values to unpack (expected 2, got 1)" := by
  refine ⟨rfl, fun hcon => ?_, rfl⟩
  have : ("not enough values to unpack (expected 3, got 2)" : String)
      = "Enter the argument for the command." := Except.ok.inj hcon
  exact absurd this (by decide)

/-- Claim C6 as amended: only the commands that index into `args` under
an `IndexError` (such as `add` with no arguments) answer `Enter the
argument for the command.`; `change` and `add-birthday` unpack `args`
into a tuple, and with too few arguments that raises `ValueError`, whose
text `not enough values to unpack (expected N, got M)` is returned. -/
theorem missing_args_messages :
    (∀ book : AddressBook,
      (add_contact [] book).1 = .ok "Enter the argument for the command.")
    ∧ (∀ (book : AddressBook) (args : List String), args.length < 3 →
        (change_contact args book).1
          = .ok ("not enough values to unpack (expected 3, got "
              ++ toString args.length ++ ")"))
    ∧ (∀ (book : AddressBook) (args : List String), args.length < 2 →
        (add_birthday args book).1
          = .ok ("not enough values to unpack (expected 2, got "
              ++ toString args.length ++ ")")) := by
  refine ⟨fun book => rfl, fun book args h => ?_, fun book args h => ?_⟩
  · unfold change_contact
    split
    · simp at h
    · rw [if_pos h]
  · unfold add_birthday
    split
    · simp at h
    · rw [if_pos h]

/-- Witness for C6's amended statement at `change Anna 123`. -/
theorem missing_args_messages_witness :
    (change_contact ["Anna", "123"] AddressBook.empty).1
      = .ok ("not enough values to unpack (expected 3, got "
          ++ toString (["Anna", "123"] : List String).length ++ ")") :=
  missing_args_messages.2.1 AddressBook.empty ["Anna", "123"] (by decide)

/-- Counterexample to claim C2: two error-ending invocations that do
mutate the book — `add` of a new name with an invalid phone leaves the
freshly created empty record behind, and `change` with a valid old phone
but invalid new phone removes the old phone before failing. -/
theorem error_mutates_book_cex :
    ((add_contact ["Anna", "123"] AddressBook.empty).1
        = .ok "Phone must contain exactly 10 digits."
      ∧ (add_contact ["Anna", "123"] AddressBook.empty).2
        ≠ AddressBook.empty)
    ∧ ((change_contact ["Anna", "1234567890", "123"]
          ⟨[("Anna", ⟨"Anna", ["1234567890"], none⟩)]⟩).1
        = .ok "Phone must contain exactly 10 digits."
      ∧ (change_contact ["Anna", "1234567890", "123"]
          ⟨[("Anna", ⟨"Anna", ["1234567890"], none⟩)]⟩).2
        ≠ ⟨[("Anna", ⟨"Anna", ["1234567890"], none⟩)]⟩) :=
  ⟨⟨rfl, by decide⟩, ⟨rfl, by decide⟩⟩

/-- Counterexample to claim C5: `strptime("%d.%m.%Y")` accepts a
one-digit day, so `Birthday("1.01.2000")` succeeds although the string is
not of the claimed `DD.MM.YYYY` shape (while `01.01.2000` is accepted by
both and `31.02.2000` by neither). -/
theorem birthday_single_digit_day_cex :
    (Birthday.make "1.01.2000").isOk = true
    ∧ claimBirthdayShape "1.01.2000" = false
    ∧ claimBirthdayShape "01.01.2000" = true
    ∧ (Birthday.make "01.01.2000").isOk = true
    ∧ (Birthday.make "31.02.2000").isOk = false := by decide

/-- Counterexample to claim C4: Python's `$` also matches just before a
trailing newline, so `Phone("1234567890\n")` succeeds although the string
is not exactly ten digits. -/
theorem phone_trailing_newline_cex :
    (Phone.make "1234567890\n").isOk = true
    ∧ ¬ tenDigitString "1234567890\n".data :=
  ⟨rfl, by decide⟩

/-- Claim C2 as amended: every command invocation ending in a caught
error (validation, not-found, already-set, too-few-arguments) leaves the
book unchanged, *except* the two cases of the counterexample: `add` of a
new name with an invalid phone keeps the freshly created empty record,
and `change` of an existing old phone to an invalid new phone keeps the
record with the old phone already removed. -/
theorem error_paths_preserve_book :
    (∀ b : AddressBook, (add_contact [] b).2 = b)
    ∧ (∀ (b : AddressBook) (n : String) (rest : List String),
        b.find n = none → pyStrip n = "" → (add_contact (n :: rest) b).2 = b)
    ∧ (∀ (b : AddressBook) (n p : String) (rest : List String) (r : Record),
        b.find n = some r → reMatchTenDigits p = false →
        (add_contact (n :: p :: rest) b).2 = b)
    ∧ (∀ (b : AddressBook) (args : List String), args.length ≠ 3 →
        (change_contact args b).2 = b)
    ∧ (∀ (b : AddressBook) (n o w : String),
        b.find n = none → (change_contact [n, o, w] b).2 = b)
    ∧ (∀ (b : AddressBook) (n o w : String) (r : Record),
        b.find n = some r → r.find_phone o = none →
        (change_contact [n, o, w] b).2 = b)
    ∧ (∀ (b : AddressBook) (args : List String), (show_phone args b).2 = b)
    ∧ (∀ b : AddressBook, (delete_contact [] b).2 = b)
    ∧ (∀ (b : AddressBook) (n : String) (rest : List String),
        b.find n = none → (delete_contact (n :: rest) b).2 = b)
    ∧ (∀ (b : AddressBook) (args : List String), args.length ≠ 2 →
        (add_birthday args b).2 = b)
    ∧ (∀ (b : AddressBook) (n d : String),
        b.find n = none → (add_birthday [n, d] b).2 = b)
    ∧ (∀ (b : AddressBook) (n d : String) (r : Record),
        b.find n = some r → r.birthday.isSome = true →
        (add_birthday [n, d] b).2 = b)
    ∧ (∀ (b : AddressBook) (n d : String) (r : Record),
        b.find n = some r → r.birthday = none →
        (Birthday.make d).isOk = false → (add_birthday [n, d] b).2 = b)
    ∧ (∀ (b : AddressBook) (args : List String), (show_birthday args b).2 = b)
    ∧ (∀ (t : PyDate) (b : AddressBook) (args : List String),
        (birthdays t args b).2 = b) := by
  refine ⟨fun b => rfl, ?_, ?_, ?_, ?_, ?_, ?_, fun b => rfl, ?_, ?_, ?_,
    ?_, ?_, ?_, fun t b args => birthdays_snd t args b⟩
  · intro b n rest h hstrip
    simp [add_contact, h, hstrip]
  · intro b n p rest r h hre
    by_cases hp0 : p = ""
    · simp [add_contact, h, hp0]
    · have hmk : Phone.make p = .error "Phone must contain exactly 10 digits." := by
        simp [Phone.make, hre]
      simp [add_contact, h, hp0, Record.add_phone, hmk, find_set_self b n r h]
  · intro b args h
    unfold change_contact
    split
    · simp at h
    · split <;> rfl
  · intro b n o w h
    simp [change_contact, h]
  · intro b n o w r h hpo
    simp [change_contact, h, Record.edit_phone, hpo, find_set_self b n r h]
  · intro b args
    unfold show_phone
    split
    · rfl
    · split <;> rfl
  · intro b n rest h
    simp [delete_contact, h]
  · intro b args h
    unfold add_birthday
    split
    · simp at h
    · split <;> rfl
  · intro b n d h
    simp [add_birthday, h]
  · intro b n d r h hsome
    obtain ⟨v, hv⟩ := Option.isSome_iff_exists.mp hsome
    simp [add_birthday, h, Record.set_birthday, hv, find_set_self b n r h]
  · intro b n d r h hb hmk
    cases he : Birthday.make d with
    | ok v => rw [he] at hmk; simp [Except.isOk, Except.toBool] at hmk
    | error e =>
      simp [add_birthday, h, Record.set_birthday, hb, he, find_set_self b n r h]
  · intro b args
    unfold show_birthday
    split
    · rfl
    · split
      · split <;> rfl
      · rfl

/-- Witness for C2's amended statement: `change` on an absent contact
leaves the empty book unchanged. -/
theorem error_paths_preserve_book_witness :
    (change_contact ["Bob", "1111111111", "2222222222"] AddressBook.empty).2
      = AddressBook.empty :=
  error_paths_preserve_book.2.2.2.2.1 AddressBook.empty
    "Bob" "1111111111" "2222222222" rfl

/-- Claim C3: whenever the upcoming-birthday query returns normally, its
output is exactly the in-insertion-order list described by the spec —
per record: candidate at `today`'s year, advanced a year when already
passed, kept iff `0 ≤ days_until ≤ 7`, with the weekend-shifted greeting
date. -/
theorem upcoming_birthdays_refine_spec (today : PyDate) (book : AddressBook)
    (es : List (String × String)) (h : getUpcoming today book = .ok es) :
    es = book.data.filterMap (fun p => specEntry today p.2) :=
  upcomingList_ok today book.data es h

/-- Witness for C3 on the spec's own scenario (today = Monday
2024-06-10): Anna (Wed 12.06) kept unshifted, Bob (Sat 15.06) shifted to
Monday 17.06, Cara (passed, next year) excluded, Dan (no birthday)
skipped. -/
theorem upcoming_birthdays_refine_spec_witness :
    getUpcoming ⟨2024, 6, 10⟩
        ⟨[("Anna", ⟨"Anna", ["1234567890"], some "12.06.2024"⟩),
          ("Bob", ⟨"Bob", [], some "15.06.2024"⟩),
          ("Cara", ⟨"Cara", [], some "09.06.2024"⟩),
          ("Dan", ⟨"Dan", ["5555555555"], none⟩)]⟩
      = .ok ((⟨[("Anna", ⟨"Anna", ["1234567890"], some "12.06.2024"⟩),
          ("Bob", ⟨"Bob", [], some "15.06.2024"⟩),
          ("Cara", ⟨"Cara", [], some "09.06.2024"⟩),
          ("Dan", ⟨"Dan", ["5555555555"], none⟩)]⟩ : AddressBook).data.filterMap
            (fun p => specEntry ⟨2024, 6, 10⟩ p.2)) := by
  have h : getUpcoming ⟨2024, 6, 10⟩
      ⟨[("Anna", ⟨"Anna", ["1234567890"], some "12.06.2024"⟩),
        ("Bob", ⟨"Bob", [], some "15.06.2024"⟩),
        ("Cara", ⟨"Cara", [], some "09.06.2024"⟩),
        ("Dan", ⟨"Dan", ["5555555555"], none⟩)]⟩
      = .ok [("Anna", "12.06.2024"), ("Bob", "17.06.2024")] := rfl
  exact h.trans (congrArg Except.ok
    (upcoming_birthdays_refine_spec ⟨2024, 6, 10⟩ _ _ h))

theorem processRecord_feb29 {today : PyDate} {r : Record} {bstr : String}
    {bd : PyDate} (hb : r.birthday = some bstr)
    (hp : parseDMY bstr = some bd) (hm : bd.month = 2) (hd : bd.day = 29)
    (hy1 : 1 ≤ today.year) (hy2 : today.year ≤ 9999)
    (hnl : isLeap today.year = false) :
    processRecord today r = .error "day is out of range for month" := by
  have h1 : ¬(today.year < 1 ∨ 9999 < today.year) := by omega
  have h2 : ¬(bd.month < 1 ∨ 12 < bd.month) := by omega
  have h3 : daysInMonth today.year bd.month < bd.day := by
    rw [hm, hd]
    have : daysInMonth today.year 2 = 28 := by simp [daysInMonth, hnl]
    omega
  have hrep : replaceYear bd today.year
      = .error "day is out of range for month" := by
    unfold replaceYear
    rw [if_neg h1, if_neg h2, if_pos h3]
  simp [processRecord, hb, hp, hrep]

theorem upcomingList_error_of_mem {today : PyDate} {k : String} {r : Record}
    {l : List (String × Record)} (hmem : (k, r) ∈ l)
    (herr : processRecord today r = .error "day is out of range for month") :
    ∃ e, upcomingList today l = .error e := by
  induction l with
  | nil => cases hmem
  | cons p rest ih =>
    rcases List.mem_cons.mp hmem with heq | hmem2
    · have hp2 : p.2 = r := by rw [← heq]
      exact ⟨"day is out of range for month",
        by simp [upcomingList, hp2, herr]⟩
    · cases hp : processRecord today p.2 with
      | error e => exact ⟨e, by simp [upcomingList, hp]⟩
      | ok o =>
        obtain ⟨e, he⟩ := ih hmem2
        cases o with
        | none => exact ⟨e, by simp [upcomingList, hp, he]⟩
        | some entry => exact ⟨e, by simp [upcomingList, hp, he]⟩

/-- Claim C10: a stored Feb-29 birthday combined with a non-leap current
year makes `date.replace` raise `ValueError`, which aborts the whole
query, so the `birthdays` command returns that error's message (and no
contact at all) while leaving the book unchanged. -/
theorem feb29_nonleap_aborts_query (today : PyDate) (book : AddressBook)
    (args : List String) (k bstr : String) (r : Record) (bd : PyDate)
    (hmem : (k, r) ∈ book.data) (hb : r.birthday = some bstr)
    (hp : parseDMY bstr = some bd) (hm : bd.month = 2) (hd : bd.day = 29)
    (hvalid : isValidDate today.year today.month today.day = true)
    (hnl : isLeap today.year = false) :
    ∃ e, getUpcoming today book = .error e
      ∧ birthdays today args book = (.ok e, book) := by
  have hy : 1 ≤ today.year ∧ today.year ≤ 9999 := by
    simp [isValidDate] at hvalid
    refine ⟨?_, ?_⟩ <;> omega
  obtain ⟨e, he⟩ := upcomingList_error_of_mem hmem
    (processRecord_feb29 hb hp hm hd hy.1 hy.2 hnl)
  refine ⟨e, he, ?_⟩
  unfold birthdays getUpcoming
  rw [he]

/-- Witness for C10: contact `Lev` born `29.02.2024`, queried with today
= 2025-02-01 (2025 is not a leap year). -/
theorem feb29_nonleap_aborts_query_witness :
    ∃ e, getUpcoming ⟨2025, 2, 1⟩ ⟨[("Lev", ⟨"Lev", [], some "29.02.2024"⟩)]⟩
        = .error e
      ∧ birthdays ⟨2025, 2, 1⟩ [] ⟨[("Lev", ⟨"Lev", [], some "29.02.2024"⟩)]⟩
        = (.ok e, ⟨[("Lev", ⟨"Lev", [], some "29.02.2024"⟩)]⟩) :=
  feb29_nonleap_aborts_query ⟨2025, 2, 1⟩
    ⟨[("Lev", ⟨"Lev", [], some "29.02.2024"⟩)]⟩ [] "Lev" "29.02.2024"
    ⟨"Lev", [], some "29.02.2024"⟩ ⟨2024, 2, 29⟩ (by decide) rfl rfl rfl rfl
    (by decide) rfl

theorem reMatch_iff (s : String) :
    reMatchTenDigits s = true
      ↔ (tenDigitString s.data
          ∨ ∃ l : List Char, s.data = l ++ ['\n'] ∧ tenDigitString l) := by
  unfold reMatchTenDigits tenDigitString
  simp only [Bool.or_eq_true, Bool.and_eq_true, beq_iff_eq, List.all_eq_true]
  constructor
  · rintro (⟨h10, hall⟩ | ⟨⟨h11, hall⟩, hlast⟩)
    · exact Or.inl ⟨h10, fun c hc => hall c hc⟩
    · right
      have hsplit := List.take_append_drop 10 s.data
      have hdlen : (s.data.drop 10).length = 1 := by
        rw [List.length_drop]; omega
      obtain ⟨c, hc⟩ := List.length_eq_one.mp hdlen
      have hs : s.data = s.data.take 10 ++ [c] := by
        conv_lhs => rw [← hsplit]
        rw [hc]
      have hcn : c = '\n' := by
        have hx := hlast
        rw [hs, List.getLast?_concat] at hx
        exact Option.some.inj hx
      subst hcn
      refine ⟨s.data.take 10, hs, ?_, fun c hc => hall c hc⟩
      rw [List.length_take]
      omega
  · rintro (⟨h10, hall⟩ | ⟨l, hs, hlen, hall⟩)
    · exact Or.inl ⟨h10, fun c hc => hall c hc⟩
    · right
      refine ⟨⟨?_, ?_⟩, ?_⟩
      · rw [hs, List.length_append, hlen]
        rfl
      · intro c hc
        rw [hs, List.take_left' hlen] at hc
        exact hall c hc
      · rw [hs]
        exact List.getLast?_concat l

/-- Claim C4 as amended: `Phone` construction succeeds iff the string is
exactly ten ASCII digits, *or* ten digits followed by a single trailing
newline (which Python's `$` anchor also accepts); everything else fails
with the validation `ValueError`. -/
theorem phone_accepts_iff (s : String) :
    (Phone.make s).isOk = true
      ↔ (tenDigitString s.data
          ∨ ∃ l : List Char, s.data = l ++ ['\n'] ∧ tenDigitString l) := by
  rw [← reMatch_iff]
  unfold Phone.make
  by_cases h : reMatchTenDigits s = true
  · simp [h, Except.isOk, Except.toBool]
  · simp [h, Except.isOk, Except.toBool]

theorem parseDMY_some_shape {s : String} {dt : PyDate}
    (h : parseDMY s = some dt) : birthdayShapeSpec s := by
  unfold parseDMY at h
  split at h
  · rename_i dcs r2 heq1
    split at h
    · rename_i mcs r4 heq2
      split at h
      · rename_i ycs heq3
        split at h
        · rename_i hcond1
          split at h
          · rename_i hcond2
            split at h
            · rename_i hcond3
              have hd1 := spanDigits_append s.data
              rw [heq1] at hd1
              have hd2 := spanDigits_append r2
              rw [heq2] at hd2
              have hd3 := spanDigits_append r4
              rw [heq3] at hd3
              have hr4 : r4 = ycs := by simpa using hd3.symm
              have ha1 : ∀ c ∈ dcs, isDig c = true := by
                have hx := spanDigits_fst_all s.data
                rw [heq1] at hx
                exact hx
              have ha2 : ∀ c ∈ mcs, isDig c = true := by
                have hx := spanDigits_fst_all r2
                rw [heq2] at hx
                exact hx
              have ha3 : ∀ c ∈ ycs, isDig c = true := by
                have hx := spanDigits_fst_all r4
                rw [heq3] at hx
                exact hx
              have heqs : s.data = dcs ++ '.' :: (mcs ++ '.' :: ycs) := by
                rw [← hd1, ← hd2, hr4]
              exact ⟨dcs, mcs, ycs, heqs,
                fun c hc => ha1 c hc, fun c hc => ha2 c hc,
                fun c hc => ha3 c hc,
                hcond1.1, hcond1.2.1, hcond1.2.2.1, hcond1.2.2.2.1,
                hcond1.2.2.2.2, hcond2.1, hcond2.2.1, hcond2.2.2.1,
                hcond2.2.2.2, hcond3.1, hcond3.2⟩
            · simp at h
          · simp at h
        · simp at h
      · simp at h
    · simp at h
  · simp at h

theorem shape_parseDMY {s : String} (h : birthdayShapeSpec s) :
    ∃ dt, parseDMY s = some dt := by
  obtain ⟨dcs, mcs, ycs, hs, hd, hm, hy,
    l1, l2, l3, l4, l5, v1, v2, v3, v4, v5, v6⟩ := h
  have h1 : spanDigits s.data = (dcs, '.' :: (mcs ++ '.' :: ycs)) := by
    rw [hs]
    exact spanDigits_stop dcs (fun c hc => hd c hc) _
  have h2 : spanDigits (mcs ++ '.' :: ycs) = (mcs, '.' :: ycs) :=
    spanDigits_stop mcs (fun c hc => hm c hc) ycs
  have h3 : spanDigits ycs = (ycs, []) :=
    spanDigits_of_all ycs (fun c hc => hy c hc)
  refine ⟨⟨digitsVal ycs, digitsVal mcs, digitsVal dcs⟩, ?_⟩
  unfold parseDMY
  simp only [h1, h2, h3]
  rw [if_pos ⟨l1, l2, l3, l4, l5⟩, if_pos ⟨v1, v2, v3, v4⟩,
    if_pos ⟨v5, v6⟩]

/-- Claim C5 as amended: `Birthday` construction succeeds iff the string
is three dot-separated digit groups where day and month have one *or*
two digits (values in 1–31 and 1–12), the year exactly four digits, and
the whole is a constructible calendar date — so `1.01.2000` is accepted
as well as `01.01.2000`, while `31.02.2000` still fails. -/
theorem birthday_accepts_iff (s : String) :
    (Birthday.make s).isOk = true ↔ birthdayShapeSpec s := by
  constructor
  · intro h
    unfold Birthday.make at h
    cases hp : parseDMY s with
    | none => rw [hp] at h; simp [Except.isOk, Except.toBool] at h
    | some dt => exact parseDMY_some_shape hp
  · intro h
    obtain ⟨dt, hdt⟩ := shape_parseDMY h
    unfold Birthday.make
    rw [hdt]
    rfl
